import Mathlib

/-
Verification of the block-manager storage and transfer engine
(lib/llm/src/block_manager). The definitions below are a shallow
embedding of the Rust source:

  - block/transfer.rs: TransferError, TransferStrategy, CudaTransferMode,
    resolve_cuda_transfer_mode, handle_local_transfer.
  - storage/cuda.rs: PinnedStorage::memset, DeviceStorage::new_from_torch,
    the Drop impl for DeviceStorage.
  - block/data/view.rs: the NixlDescriptor impl for MemoryView and
    MemoryView::as_nixl_descriptor.

Where a definition the code depends on lives in a module that is not part
of the provided slice (strategy.rs, storage/mod.rs, storage/nixl.rs,
transfer/context.rs, transfer/memcpy.rs, transfer/cuda.rs,
transfer/nixl.rs), it is modelled from the specification and its
doc comment says so.
-/

namespace Dynamo

/-- Modelled from the spec: the storage tier tag (StorageType in
storage/mod.rs, not part of the slice). Tiers are System, Pinned,
Device(device-id), Disk(file-descriptor) and the remote fabric tier. -/
inductive StorageType where
  | system
  | pinned
  | device (device_id : Nat)
  | disk (fd : Nat)
  | nixl
deriving DecidableEq

/-- Modelled from the spec: the StorageError enum of storage/mod.rs
(not part of the slice); variants taken from the uses in
storage/cuda.rs and the spec error taxonomy. -/
inductive StorageError where
  | operationFailed (msg : String)
  | invalidConfig (msg : String)
  | cuda (msg : String)
deriving DecidableEq

/-- BlockTarget from block/transfer.rs. -/
inductive BlockTarget where
  | source
  | destination
deriving DecidableEq

/-- TransferError from block/transfer.rs. -/
inductive TransferError where
  | builderError (msg : String)
  | executionError (msg : String)
  | incompatibleTypes (msg : String)
  | countMismatch (sources targets : Nat)
  | blockError (msg : String)
  | noBlocksProvided
  | mismatchedBlockSetIndex (target : BlockTarget) (a b : Nat)
  | mismatchedWorkerID (target : BlockTarget) (a b : Nat)
  | other (msg : String)
deriving DecidableEq

/-- NixlTransfer from block/transfer.rs. -/
inductive NixlTransfer where
  | read
  | write
deriving DecidableEq

/-- TransferStrategy from block/transfer.rs. -/
inductive TransferStrategy where
  | memcpy
  | cudaAsyncH2D
  | cudaAsyncD2H
  | cudaAsyncD2D
  | cudaBlockingH2D
  | cudaBlockingD2H
  | nixl (t : NixlTransfer)
  | invalid
deriving DecidableEq

/-- CudaTransferMode from block/transfer.rs. -/
inductive CudaTransferMode where
  | custom
  | default
deriving DecidableEq

/-- The four concrete storage types over which the WriteToStrategy trait
is instantiated in the source: SystemStorage, PinnedStorage,
DeviceStorage and (remote) NixlStorage. -/
inductive StorageKind where
  | system
  | pinned
  | device
  | nixl
deriving DecidableEq

/-- Modelled from the spec: the WriteToStrategy trait impls live in
block/transfer/strategy.rs, which is not part of the slice. The table
follows the spec (section 4.4) and agrees with the in-tree test
tests::write_to_strategy in block/transfer.rs. A pair with the fabric
tier as local source has no impl, so the trait default applies and the
resolution is Invalid. -/
def write_to_strategy : StorageKind → StorageKind → TransferStrategy
  | .system, .system => .memcpy
  | .system, .pinned => .memcpy
  | .system, .device => .cudaBlockingH2D
  | .system, .nixl => .nixl .write
  | .pinned, .system => .memcpy
  | .pinned, .pinned => .memcpy
  | .pinned, .device => .cudaAsyncH2D
  | .pinned, .nixl => .nixl .write
  | .device, .system => .cudaBlockingD2H
  | .device, .pinned => .cudaAsyncD2H
  | .device, .device => .cudaAsyncD2D
  | .device, .nixl => .nixl .write
  | .nixl, _ => .invalid

/-- Resolve the CUDA transfer mode, from resolve_cuda_transfer_mode in
block/transfer.rs. The source panics when called with a strategy other
than CudaAsyncH2D or CudaAsyncD2H; the panic is modelled as none. -/
def resolve_cuda_transfer_mode
    (base_strategy : TransferStrategy) (is_contiguous : Bool) :
    Option CudaTransferMode :=
  match base_strategy with
  | .cudaAsyncH2D => some (if is_contiguous then .default else .custom)
  | .cudaAsyncD2H => some (if is_contiguous then .default else .custom)
  | _ => none

/-- A block participating in a transfer: the only attribute the sliced
executor inspects is whether its block data is fully contiguous
(block_data().is_fully_contiguous()). -/
structure Block where
  is_fully_contiguous : Bool
deriving DecidableEq

/-- Observable operations issued by the transfer executor. -/
inductive Op where
  | copyBlock (i : Nat)
  | customKernel
  | cudaEventRecord
  | nixlPost
deriving DecidableEq

/-- How a call to the executor terminates: returning Ok with a receiver,
returning an error, or a Rust panic (out-of-bounds index / unwrap). -/
inductive ExecResult where
  | ok
  | err (e : TransferError)
  | panics
deriving DecidableEq

/-- Outcome of one executor call: the operations performed in order, the
number of fulfillments of the one-shot completion channel (counting the
eventual fulfillment by a recorded CUDA event or a spawned fabric task),
and the returned result. -/
structure Outcome where
  ops : List Op
  sends : Nat
  result : ExecResult
deriving DecidableEq

/-- Modelled from the spec: the environment supplies the results of the
fallible leaf operations whose modules are not part of the slice —
memcpy::copy_block / cuda::copy_block per block index,
cuda::copy_blocks_with_customized_kernel, TransferContext::cuda_event,
and nixl::write_blocks_to. -/
structure Env where
  copyBlockResult : Nat → Except TransferError Unit
  kernelResult : Except TransferError Unit
  cudaEventResult : Except TransferError Unit
  nixlResult : Except TransferError Unit

/-- An environment in which every leaf operation succeeds. -/
def allOkEnv : Env :=
  { copyBlockResult := fun _ => .ok ()
    kernelResult := .ok ()
    cudaEventResult := .ok ()
    nixlResult := .ok () }

/-- Run the per-block copy loop over the zipped (source, target) pairs,
as the for-loops in handle_local_transfer do: each iteration performs
one copy_block, and the first error aborts the loop. Returns the copies
performed and the first error, if any. -/
def runCopies (env : Env) : List (Block × Block) → Nat → List Op × Option TransferError
  | [], _ => ([], none)
  | _ :: rest, i =>
    match env.copyBlockResult i with
    | .error e => ([], some e)
    | .ok _ =>
      let r := runCopies env rest (i + 1)
      (Op.copyBlock i :: r.1, r.2)

/-- Modelled from the spec: TransferContext::cuda_event (context.rs, not
part of the slice) records an event on the stream; on success the event
later fulfills the completion channel exactly once, on failure the
channel is dropped unfulfilled and the error is returned. -/
def recordEvent (env : Env) (ops : List Op) : Outcome :=
  match env.cudaEventResult with
  | .error e => ⟨ops, 0, .err e⟩
  | .ok _ => ⟨ops ++ [.cudaEventRecord], 1, .ok⟩

/-- The contiguity-based CUDA mode choice of handle_local_transfer
(lines 203-209 of block/transfer.rs): it reads sources[0] and targets[0]
(none models the panic on an empty slice) and resolves the mode from
whether both are fully contiguous. -/
def executor_cuda_mode (strat : TransferStrategy) (sources targets : List Block) :
    Option CudaTransferMode :=
  match sources.head?, targets.head? with
  | some s0, some t0 =>
    resolve_cuda_transfer_mode strat (s0.is_fully_contiguous && t0.is_fully_contiguous)
  | _, _ => none

/-- The CudaAsyncH2D / CudaAsyncD2H branch of handle_local_transfer:
choose the mode by contiguity, run the custom kernel or the per-block
copies, then record the completion event. -/
def cudaAsyncHostDevicePath (strat : TransferStrategy)
    (sources targets : List Block) (env : Env) : Outcome :=
  match executor_cuda_mode strat sources targets with
  | some .custom =>
    match env.kernelResult with
    | .error e => ⟨[], 0, .err e⟩
    | .ok _ => recordEvent env [.customKernel]
  | some .default =>
    match runCopies env (sources.zip targets) 0 with
    | (ops, some e) => ⟨ops, 0, .err e⟩
    | (ops, none) => recordEvent env ops
  | none => ⟨[], 0, .panics⟩

/-- The CudaAsyncD2D fallback branch of handle_local_transfer: always
the individual per-block copies, then the completion event. -/
def cudaD2DPath (sources targets : List Block) (env : Env) : Outcome :=
  match runCopies env (sources.zip targets) 0 with
  | (ops, some e) => ⟨ops, 0, .err e⟩
  | (ops, none) => recordEvent env ops

/-- The transfer executor, from handle_local_transfer in
block/transfer.rs, dispatching on the statically resolved strategy.
Notable features carried over faithfully from the source: the function
performs no length or emptiness validation of the two sequences (the
Memcpy and per-block CUDA loops zip the sequences, silently truncating
to the shorter one), the CudaAsyncH2D/D2H branch indexes sources[0] and
targets[0] (a panic when either sequence is empty), and the final
wildcard arm — reached by CudaBlockingH2D, CudaBlockingD2H and Invalid —
returns IncompatibleTypes. The fabric branch posts the batched transfer
(nixl::write_blocks_to, modelled by env.nixlResult) and on success spawns
a task that fulfills the channel once the transfer future completes. -/
def handle_local_transfer (strat : TransferStrategy)
    (sources targets : List Block) (env : Env) : Outcome :=
  match strat with
  | .memcpy =>
    match runCopies env (sources.zip targets) 0 with
    | (ops, some e) => ⟨ops, 0, .err e⟩
    | (ops, none) => ⟨ops, 1, .ok⟩
  | .cudaAsyncH2D => cudaAsyncHostDevicePath .cudaAsyncH2D sources targets env
  | .cudaAsyncD2H => cudaAsyncHostDevicePath .cudaAsyncD2H sources targets env
  | .cudaAsyncD2D => cudaD2DPath sources targets env
  | .nixl _ =>
    match env.nixlResult with
    | .error e => ⟨[], 0, .err e⟩
    | .ok _ => ⟨[.nixlPost], 1, .ok⟩
  | _ => ⟨[], 0, .err (.incompatibleTypes "Unsupported copy strategy")⟩

/-- PinnedStorage from storage/cuda.rs, reduced to the attributes the
claims touch: the size in bytes and the byte contents of the backing
region, indexed by offset from the base pointer. -/
structure PinnedStorage where
  size : Nat
  data : Nat → UInt8

/-- StorageMemset::memset for PinnedStorage, from storage/cuda.rs: fail
with OperationFailed when offset + size exceeds the storage size,
otherwise write_bytes(ptr + offset, value, size). Returns the resulting
storage together with the call's result. -/
def PinnedStorage.memset (st : PinnedStorage) (value : UInt8) (offset len : Nat) :
    PinnedStorage × Except StorageError Unit :=
  if offset + len > st.size then
    (st, .error (.operationFailed "memset: offset + size > storage size"))
  else
    ({ st with data := fun i => if offset ≤ i ∧ i < offset + len then value else st.data i },
      .ok ())

/-- TorchDevice, from its uses in storage/cuda.rs (the enum itself lives
in a module outside the slice): a CUDA device with an id, or anything
else (e.g. cpu). -/
inductive TorchDevice where
  | cuda (device_id : Nat)
  | other (desc : String)
deriving DecidableEq

/-- The externally owned tensor adopted by DeviceStorage::new_from_torch:
the TorchTensor trait methods the source calls. -/
structure TorchTensor where
  device : TorchDevice
  data_ptr : Nat
  size_bytes : Nat
deriving DecidableEq

/-- DeviceStorageType from storage/cuda.rs: memory we allocated
ourselves versus memory that came from a torch tensor. -/
inductive DeviceStorageType where
  | owned
  | torch
deriving DecidableEq

/-- DeviceStorage from storage/cuda.rs, reduced to the attributes the
claims touch. The ctx_device field models ctx.cu_device() of the CUDA
context the storage holds. -/
structure DeviceStorage where
  ptr : Nat
  size : Nat
  ctx_device : Nat
  _storage_type : DeviceStorageType
deriving DecidableEq

/-- DeviceStorage::new_from_torch from storage/cuda.rs: reject a
non-CUDA tensor, reject a device-id mismatch with the adopting context,
otherwise adopt the tensor's pointer and size with the Torch ownership
marker. -/
def DeviceStorage.new_from_torch (ctx_device : Nat) (tensor : TorchTensor) :
    Except StorageError DeviceStorage :=
  match tensor.device with
  | .other _ => .error (.invalidConfig "Tensor is not CUDA!")
  | .cuda device_id =>
    if device_id ≠ ctx_device then
      .error (.invalidConfig "Tensor is not on the same device as the context!")
    else
      .ok ⟨tensor.data_ptr, tensor.size_bytes, ctx_device, .torch⟩

/-- Storage::storage_type for DeviceStorage, from storage/cuda.rs:
Device(ctx.cu_device()). -/
def DeviceStorage.storage_type (s : DeviceStorage) : StorageType :=
  .device s.ctx_device

/-- The observable steps of dropping a DeviceStorage. -/
inductive DropAction where
  | releaseHandles
  | freeSync
  | dropTensorRef
deriving DecidableEq

/-- The Drop impl for DeviceStorage from storage/cuda.rs as the ordered
list of actions it performs: first handles.release(); then, for Owned
memory, free_sync on the pointer; for Torch memory nothing is freed and
only the held Arc reference to the external tensor is dropped. -/
def DeviceStorage.drop_actions (s : DeviceStorage) : List DropAction :=
  match s._storage_type with
  | .owned => [.releaseHandles, .freeSync]
  | .torch => [.releaseHandles, .dropTensorRef]

/-- Modelled from the spec: the NIXL memory type returned by
StorageType::nixl_mem_type (storage/nixl.rs, not part of the slice);
the spec maps System to host, Pinned to host-pinned, Device to gpu and
Disk to file. -/
inductive MemType where
  | host
  | hostPinned
  | gpu
  | file
deriving DecidableEq

/-- Modelled from the spec: StorageType::nixl_mem_type (storage/nixl.rs,
not part of the slice), following the spec's memory-type mapping; none
models the absence of a mapping for the remote tier. -/
def StorageType.nixl_mem_type : StorageType → Option MemType
  | .system => some .host
  | .pinned => some .hostPinned
  | .device _ => some .gpu
  | .disk _ => some .file
  | .nixl => none

/-- NixlDescriptor::device_id for MemoryView, from block/data/view.rs:
0 for System and Pinned, the device-id for Device, the file descriptor
for Disk; the wildcard arm of the source panics, modelled as none. -/
def StorageType.nixl_device_id : StorageType → Option Nat
  | .system => some 0
  | .pinned => some 0
  | .device device_id => some device_id
  | .disk fd => some fd
  | .nixl => none

/-- MemoryView from block/data/view.rs, reduced to the attributes its
NixlDescriptor impl reads: the address, the size and the storage type
recorded at construction. -/
structure MemoryView where
  addr : Nat
  size : Nat
  storage_type : StorageType
deriving DecidableEq

/-- NixlMemoryDescriptor as built by MemoryView::as_nixl_descriptor. -/
structure NixlMemoryDescriptor where
  addr : Nat
  size : Nat
  mem_type : MemType
  device_id : Nat
deriving DecidableEq

/-- MemoryView::as_nixl_descriptor from block/data/view.rs: a descriptor
carrying the view's address, the view's size, the storage type's NIXL
memory type and the storage type's device-id field; none models the
panic for a tier outside the mapping. -/
def MemoryView.as_nixl_descriptor (v : MemoryView) : Option NixlMemoryDescriptor :=
  match v.storage_type.nixl_mem_type, v.storage_type.nixl_device_id with
  | some mt, some did => some ⟨v.addr, v.size, mt, did⟩
  | _, _ => none

/-- A concrete 4-byte pinned storage holding zeroes, used to instantiate
the memset theorems. -/
def st4 : PinnedStorage := ⟨4, fun _ => 0⟩

/-- A concrete owned device storage. -/
def ownedStorage : DeviceStorage := ⟨1, 2, 0, .owned⟩

/-- A concrete device storage adopted from a torch tensor. -/
def torchStorage : DeviceStorage := ⟨1, 2, 0, .torch⟩

lemma runCopies_mem (env : Env) (pairs : List (Block × Block)) :
    ∀ (i : Nat) (op : Op), op ∈ (runCopies env pairs i).1 → ∃ j, op = Op.copyBlock j := by
  induction pairs with
  | nil => intro i op hop; simp [runCopies] at hop
  | cons p rest ih =>
    intro i op hop
    simp only [runCopies] at hop
    cases h : env.copyBlockResult i with
    | error e => rw [h] at hop; simp at hop
    | ok u =>
      rw [h] at hop
      simp at hop
      rcases hop with rfl | hmem
      · exact ⟨i, rfl⟩
      · exact ih (i + 1) op hmem

lemma recordEvent_ops (env : Env) (ops : List Op) :
    (recordEvent env ops).ops = ops ∨
      (recordEvent env ops).ops = ops ++ [Op.cudaEventRecord] := by
  cases h : env.cudaEventResult <;> simp [recordEvent, h]

lemma defaultBranch_no_kernel (env : Env) (pr : List (Block × Block)) :
    Op.customKernel ∉ (match runCopies env pr 0 with
      | (ops, some e) => (⟨ops, 0, .err e⟩ : Outcome)
      | (ops, none) => recordEvent env ops).ops := by
  cases hr : runCopies env pr 0 with
  | mk ops e2 =>
    have hops : ∀ op ∈ ops, ∃ j, op = Op.copyBlock j := by
      intro op hop
      exact runCopies_mem env pr 0 op (by rw [hr]; exact hop)
    cases e2 with
    | some e =>
      intro hmem
      obtain ⟨j, hj⟩ := hops _ hmem
      exact Op.noConfusion hj
    | none =>
      show Op.customKernel ∉ (recordEvent env ops).ops
      rcases recordEvent_ops env ops with h | h <;> rw [h] <;> intro hmem
      · obtain ⟨j, hj⟩ := hops _ hmem
        exact Op.noConfusion hj
      · rcases List.mem_append.mp hmem with hmem2 | hmem2
        · obtain ⟨j, hj⟩ := hops _ hmem2
          exact Op.noConfusion hj
        · simp at hmem2

lemma cudaD2DPath_no_kernel (env : Env) (sources targets : List Block) :
    Op.customKernel ∉ (cudaD2DPath sources targets env).ops :=
  defaultBranch_no_kernel env (sources.zip targets)

lemma customBranch_no_copy (env : Env) (i : Nat) :
    Op.copyBlock i ∉ (match env.kernelResult with
      | .error e => (⟨[], 0, .err e⟩ : Outcome)
      | .ok _ => recordEvent env [Op.customKernel]).ops := by
  cases hk : env.kernelResult with
  | error e => simp
  | ok u =>
    show Op.copyBlock i ∉ (recordEvent env [Op.customKernel]).ops
    rcases recordEvent_ops env [Op.customKernel] with h | h <;> rw [h] <;> simp

lemma asyncPath_mode_obligations (strat : TransferStrategy)
    (hres : ∀ c, resolve_cuda_transfer_mode strat c =
      some (if c then CudaTransferMode.default else CudaTransferMode.custom))
    (s0 t0 : Block) (ss ts : List Block) (env : Env) :
    ((s0.is_fully_contiguous && t0.is_fully_contiguous) = true →
      Op.customKernel ∉ (cudaAsyncHostDevicePath strat (s0 :: ss) (t0 :: ts) env).ops) ∧
    ((s0.is_fully_contiguous && t0.is_fully_contiguous) = false →
      ∀ i, Op.copyBlock i ∉ (cudaAsyncHostDevicePath strat (s0 :: ss) (t0 :: ts) env).ops) := by
  have hmode : executor_cuda_mode strat (s0 :: ss) (t0 :: ts) =
      some (if s0.is_fully_contiguous && t0.is_fully_contiguous
        then CudaTransferMode.default else CudaTransferMode.custom) := by
    simp [executor_cuda_mode, hres]
  constructor
  · intro hc
    unfold cudaAsyncHostDevicePath
    rw [hmode, hc]
    exact defaultBranch_no_kernel env _
  · intro hc i
    unfold cudaAsyncHostDevicePath
    rw [hmode, hc]
    exact customBranch_no_copy env i

lemma recordEvent_sends (env : Env) (ops : List Op) :
    ((recordEvent env ops).result = ExecResult.ok → (recordEvent env ops).sends = 1) ∧
    (∀ e, (recordEvent env ops).result = ExecResult.err e → (recordEvent env ops).sends = 0) := by
  cases h : env.cudaEventResult <;> simp [recordEvent, h]

lemma cudaAsyncHostDevicePath_sends (strat : TransferStrategy)
    (sources targets : List Block) (env : Env) :
    ((cudaAsyncHostDevicePath strat sources targets env).result = ExecResult.ok →
      (cudaAsyncHostDevicePath strat sources targets env).sends = 1) ∧
    (∀ e, (cudaAsyncHostDevicePath strat sources targets env).result = ExecResult.err e →
      (cudaAsyncHostDevicePath strat sources targets env).sends = 0) := by
  unfold cudaAsyncHostDevicePath
  cases hm : executor_cuda_mode strat sources targets with
  | none => simp
  | some mode =>
    cases mode with
    | custom =>
      cases hk : env.kernelResult with
      | error e => simp
      | ok u => exact recordEvent_sends env [Op.customKernel]
    | default =>
      cases hr : runCopies env (sources.zip targets) 0 with
      | mk ops e2 =>
        cases e2 with
        | some e => simp
        | none => exact recordEvent_sends env ops

lemma cudaD2DPath_sends (sources targets : List Block) (env : Env) :
    ((cudaD2DPath sources targets env).result = ExecResult.ok →
      (cudaD2DPath sources targets env).sends = 1) ∧
    (∀ e, (cudaD2DPath sources targets env).result = ExecResult.err e →
      (cudaD2DPath sources targets env).sends = 0) := by
  unfold cudaD2DPath
  cases hr : runCopies env (sources.zip targets) 0 with
  | mk ops e2 =>
    cases e2 with
    | some e => simp
    | none => exact recordEvent_sends env ops

/-- C1: strategy resolution is a pure function of the static storage-tier
pair and matches the table of spec section 4.4 exactly, with every pair
whose local source is the fabric tier resolving to Invalid. -/
theorem claim_C1_strategy_table :
    write_to_strategy .system .system = .memcpy ∧
    write_to_strategy .system .pinned = .memcpy ∧
    write_to_strategy .system .device = .cudaBlockingH2D ∧
    write_to_strategy .system .nixl = .nixl .write ∧
    write_to_strategy .pinned .system = .memcpy ∧
    write_to_strategy .pinned .pinned = .memcpy ∧
    write_to_strategy .pinned .device = .cudaAsyncH2D ∧
    write_to_strategy .pinned .nixl = .nixl .write ∧
    write_to_strategy .device .system = .cudaBlockingD2H ∧
    write_to_strategy .device .pinned = .cudaAsyncD2H ∧
    write_to_strategy .device .device = .cudaAsyncD2D ∧
    write_to_strategy .device .nixl = .nixl .write ∧
    (∀ dst, write_to_strategy .nixl dst = .invalid) := by
  refine ⟨rfl, rfl, rfl, rfl, rfl, rfl, rfl, rfl, rfl, rfl, rfl, rfl, fun dst => ?_⟩
  cases dst <;> rfl

/-- C2: evaluation of the executor at a failing input for the claim that
unequal-length batches return CountMismatch. With the Memcpy strategy,
one source and two targets, handle_local_transfer zips the sequences,
copies the single zipped pair, fulfills the completion channel and
returns Ok; it performs no length validation and never constructs
CountMismatch. -/
theorem claim_C2_count_mismatch_unchecked :
    handle_local_transfer .memcpy [⟨true⟩] [⟨true⟩, ⟨true⟩] allOkEnv =
      ⟨[.copyBlock 0], 1, .ok⟩ ∧
    (handle_local_transfer .memcpy [⟨true⟩] [⟨true⟩, ⟨true⟩] allOkEnv).result ≠
      .err (.countMismatch 1 2) := by
  exact ⟨rfl, by decide⟩

/-- C3: evaluation of the executor at a failing input for the claim that
an empty batch returns NoBlocksProvided. With the Memcpy strategy and
empty sequences, handle_local_transfer returns Ok with an
immediately-fulfilled completion channel; with the CudaAsyncH2D strategy
it indexes sources[0] and panics. Neither path returns
NoBlocksProvided. -/
theorem claim_C3_no_blocks_unchecked :
    handle_local_transfer .memcpy [] [] allOkEnv = ⟨[], 1, .ok⟩ ∧
    (handle_local_transfer .cudaAsyncH2D [] [] allOkEnv).result = .panics ∧
    (handle_local_transfer .memcpy [] [] allOkEnv).result ≠ .err .noBlocksProvided := by
  exact ⟨rfl, rfl, by decide⟩

/-- C6: memset on a pinned storage fails with OperationFailed exactly
when offset + length exceeds the storage size, succeeds otherwise, and a
failing call leaves the storage contents unchanged. -/
theorem claim_C6_memset_bounds (st : PinnedStorage) (v : UInt8) (off len : Nat) :
    ((st.memset v off len).2 =
        .error (.operationFailed "memset: offset + size > storage size") ↔
      off + len > st.size) ∧
    (off + len ≤ st.size → (st.memset v off len).2 = .ok ()) ∧
    (off + len > st.size → (st.memset v off len).1 = st) := by
  by_cases h : off + len > st.size
  · refine ⟨⟨fun _ => h, fun _ => ?_⟩, fun hle => absurd hle (by omega), fun _ => ?_⟩
    · simp [PinnedStorage.memset, h]
    · simp [PinnedStorage.memset, h]
  · refine ⟨⟨fun heq => ?_, fun hgt => absurd hgt h⟩, fun _ => ?_, fun hgt => absurd hgt h⟩
    · rw [PinnedStorage.memset, if_neg h] at heq
      exact Except.noConfusion heq
    · simp [PinnedStorage.memset, h]

/-- C6 witness: at a concrete 4-byte storage, an in-bounds memset
succeeds and an out-of-bounds memset leaves the storage unchanged. -/
theorem claim_C6_memset_bounds_witness :
    (st4.memset 171 1 2).2 = .ok () ∧ (st4.memset 171 3 9).1 = st4 :=
  ⟨(claim_C6_memset_bounds st4 171 1 2).2.1 (by decide),
   (claim_C6_memset_bounds st4 171 3 9).2.2 (by decide)⟩

/-- C7: after a successful memset(v, off, len), every byte in
[off, off + len) reads back as v and every byte outside that range is
unchanged. -/
theorem claim_C7_memset_frame (st : PinnedStorage) (v : UInt8) (off len : Nat)
    (h : off + len ≤ st.size) (i : Nat) :
    (off ≤ i ∧ i < off + len → (st.memset v off len).1.data i = v) ∧
    ((i < off ∨ off + len ≤ i) → (st.memset v off len).1.data i = st.data i) := by
  have hn : ¬ (off + len > st.size) := by omega
  constructor
  · intro hi
    simp [PinnedStorage.memset, hn, hi]
  · intro hi
    have hout : ¬ (off ≤ i ∧ i < off + len) := by omega
    simp [PinnedStorage.memset, hn, hout]

/-- C7 witness: memset(171, 1, 2) on the concrete 4-byte storage writes
byte 1 to 171 and leaves byte 0 unchanged. -/
theorem claim_C7_memset_frame_witness :
    (st4.memset 171 1 2).1.data 1 = 171 ∧ (st4.memset 171 1 2).1.data 0 = st4.data 0 :=
  ⟨(claim_C7_memset_frame st4 171 1 2 (by decide) 1).1 (by decide),
   (claim_C7_memset_frame st4 171 1 2 (by decide) 0).2 (by decide)⟩

/-- C4: for CudaAsyncH2D and CudaAsyncD2H the executor resolves the
Default mode (driver native async memcpy) exactly when both the source
block and the destination block are fully contiguous, and the Custom
scatter/gather kernel otherwise; accordingly, when both are contiguous
the executed operations contain no custom-kernel launch, and when not
both are contiguous they contain no per-block copy; for CudaAsyncD2D the
executor always takes the per-block copy path and never launches the
custom kernel. -/
theorem claim_C4_cuda_contiguity (strat : TransferStrategy)
    (hs : strat = TransferStrategy.cudaAsyncH2D ∨ strat = TransferStrategy.cudaAsyncD2H)
    (s0 t0 : Block) (ss ts : List Block) (env : Env) :
    executor_cuda_mode strat (s0 :: ss) (t0 :: ts) =
      some (if s0.is_fully_contiguous && t0.is_fully_contiguous
        then CudaTransferMode.default else CudaTransferMode.custom) ∧
    ((s0.is_fully_contiguous && t0.is_fully_contiguous) = true →
      Op.customKernel ∉ (handle_local_transfer strat (s0 :: ss) (t0 :: ts) env).ops) ∧
    ((s0.is_fully_contiguous && t0.is_fully_contiguous) = false →
      ∀ i, Op.copyBlock i ∉ (handle_local_transfer strat (s0 :: ss) (t0 :: ts) env).ops) ∧
    (∀ sources targets, Op.customKernel ∉
      (handle_local_transfer TransferStrategy.cudaAsyncD2D sources targets env).ops) := by
  have hres : ∀ c, resolve_cuda_transfer_mode strat c =
      some (if c then CudaTransferMode.default else CudaTransferMode.custom) := by
    rcases hs with rfl | rfl <;> intro c <;> rfl
  have hobl := asyncPath_mode_obligations strat hres s0 t0 ss ts env
  have hhandle : handle_local_transfer strat (s0 :: ss) (t0 :: ts) env =
      cudaAsyncHostDevicePath strat (s0 :: ss) (t0 :: ts) env := by
    rcases hs with rfl | rfl <;> rfl
  refine ⟨?_, ?_, ?_, ?_⟩
  · simp [executor_cuda_mode, hres]
  · rw [hhandle]; exact hobl.1
  · rw [hhandle]; exact hobl.2
  · intro sources targets
    exact cudaD2DPath_no_kernel env sources targets

/-- C4 witness: a contiguous pinned-to-device single-block transfer
resolves the Default mode and launches no custom kernel. -/
theorem claim_C4_cuda_contiguity_witness :
    executor_cuda_mode TransferStrategy.cudaAsyncH2D [⟨true⟩] [⟨true⟩] =
      some CudaTransferMode.default ∧
    Op.customKernel ∉
      (handle_local_transfer TransferStrategy.cudaAsyncH2D [⟨true⟩] [⟨true⟩] allOkEnv).ops := by
  have h := claim_C4_cuda_contiguity TransferStrategy.cudaAsyncH2D (Or.inl rfl)
    ⟨true⟩ ⟨true⟩ [] [] allOkEnv
  exact ⟨h.1, h.2.1 rfl⟩

/-- C5: for every strategy, batch and environment of leaf-operation
results, an executor call that returns Ok fulfills the one-shot
completion channel exactly once (counting the eventual fulfillment by
the recorded CUDA event or the spawned fabric task), and a call that
returns an error never fulfills the channel. -/
theorem claim_C5_completion_channel (strat : TransferStrategy)
    (sources targets : List Block) (env : Env) :
    ((handle_local_transfer strat sources targets env).result = ExecResult.ok →
      (handle_local_transfer strat sources targets env).sends = 1) ∧
    (∀ e, (handle_local_transfer strat sources targets env).result = ExecResult.err e →
      (handle_local_transfer strat sources targets env).sends = 0) := by
  cases strat with
  | memcpy =>
    simp only [handle_local_transfer]
    cases hr : runCopies env (sources.zip targets) 0 with
    | mk ops e2 => cases e2 <;> simp
  | cudaAsyncH2D => exact cudaAsyncHostDevicePath_sends _ sources targets env
  | cudaAsyncD2H => exact cudaAsyncHostDevicePath_sends _ sources targets env
  | cudaAsyncD2D => exact cudaD2DPath_sends sources targets env
  | nixl t =>
    simp only [handle_local_transfer]
    cases hn : env.nixlResult <;> simp
  | cudaBlockingH2D => simp [handle_local_transfer]
  | cudaBlockingD2H => simp [handle_local_transfer]
  | invalid => simp [handle_local_transfer]

/-- C5 witness: a successful one-block Memcpy transfer fulfills the
channel exactly once, and an executor call under the Invalid strategy
returns an error with zero fulfillments. -/
theorem claim_C5_completion_channel_witness :
    (handle_local_transfer TransferStrategy.memcpy [⟨true⟩] [⟨true⟩] allOkEnv).sends = 1 ∧
    (handle_local_transfer TransferStrategy.invalid [⟨true⟩] [⟨true⟩] allOkEnv).sends = 0 :=
  ⟨(claim_C5_completion_channel TransferStrategy.memcpy [⟨true⟩] [⟨true⟩] allOkEnv).1 rfl,
   (claim_C5_completion_channel TransferStrategy.invalid [⟨true⟩] [⟨true⟩] allOkEnv).2
     (.incompatibleTypes "Unsupported copy strategy") rfl⟩

/-- C8: adopting a foreign tensor fails with InvalidConfig when the
tensor's device is not a GPU device, fails with InvalidConfig when its
GPU device-id differs from the adopting context's device-id, and
otherwise succeeds with a storage whose address is the tensor's data
pointer, whose size is the tensor's byte size, and whose tier tag is
Device of the context's device-id. -/
theorem claim_C8_new_from_torch (ctx : Nat) (t : TorchTensor) :
    (∀ d, t.device = .other d →
      DeviceStorage.new_from_torch ctx t = .error (.invalidConfig "Tensor is not CUDA!")) ∧
    (∀ id, t.device = .cuda id → id ≠ ctx →
      DeviceStorage.new_from_torch ctx t =
        .error (.invalidConfig "Tensor is not on the same device as the context!")) ∧
    (t.device = .cuda ctx →
      DeviceStorage.new_from_torch ctx t = .ok ⟨t.data_ptr, t.size_bytes, ctx, .torch⟩ ∧
      DeviceStorage.storage_type ⟨t.data_ptr, t.size_bytes, ctx, .torch⟩ =
        StorageType.device ctx) := by
  refine ⟨?_, ?_, ?_⟩
  · intro d hd
    simp [DeviceStorage.new_from_torch, hd]
  · intro id hd hne
    simp [DeviceStorage.new_from_torch, hd, hne]
  · intro hd
    exact ⟨by simp [DeviceStorage.new_from_torch, hd], rfl⟩

/-- C8 witness: a cpu tensor and a wrong-device tensor are rejected with
InvalidConfig, and a matching tensor is adopted with its pointer and
size. -/
theorem claim_C8_new_from_torch_witness :
    DeviceStorage.new_from_torch 0 ⟨.other "cpu", 100, 1024⟩ =
      .error (.invalidConfig "Tensor is not CUDA!") ∧
    DeviceStorage.new_from_torch 0 ⟨.cuda 1, 100, 1024⟩ =
      .error (.invalidConfig "Tensor is not on the same device as the context!") ∧
    DeviceStorage.new_from_torch 0 ⟨.cuda 0, 100, 1024⟩ = .ok ⟨100, 1024, 0, .torch⟩ :=
  ⟨(claim_C8_new_from_torch 0 ⟨.other "cpu", 100, 1024⟩).1 "cpu" rfl,
   (claim_C8_new_from_torch 0 ⟨.cuda 1, 100, 1024⟩).2.1 1 rfl (by decide),
   ((claim_C8_new_from_torch 0 ⟨.cuda 0, 100, 1024⟩).2.2 rfl).1⟩

/-- C9: dropping a device storage releases the registration handles
first; the deallocator runs only for Owned memory, and for memory
adopted from a torch tensor nothing is freed — only the held reference
to the external tensor is dropped. -/
theorem claim_C9_device_drop (s : DeviceStorage) :
    s.drop_actions.head? = some DropAction.releaseHandles ∧
    (s._storage_type = .owned →
      s.drop_actions = [DropAction.releaseHandles, DropAction.freeSync]) ∧
    (s._storage_type = .torch →
      s.drop_actions = [DropAction.releaseHandles, DropAction.dropTensorRef] ∧
      DropAction.freeSync ∉ s.drop_actions) := by
  obtain ⟨p, sz, cd, st⟩ := s
  cases st <;> simp [DeviceStorage.drop_actions]

/-- C9 witness: the concrete adopted storage releases its handles and
drops the tensor reference without freeing, while the concrete owned
storage frees after releasing its handles. -/
theorem claim_C9_device_drop_witness :
    DeviceStorage.drop_actions torchStorage =
      [DropAction.releaseHandles, DropAction.dropTensorRef] ∧
    DeviceStorage.drop_actions ownedStorage =
      [DropAction.releaseHandles, DropAction.freeSync] :=
  ⟨((claim_C9_device_drop torchStorage).2.2 rfl).1,
   (claim_C9_device_drop ownedStorage).2.1 rfl⟩

/-- C10: the fabric descriptor built from a view carries the view's
address and size; its device-id field holds 0 for the System and Pinned
tiers, the GPU device-id for the Device tier and the file descriptor for
the Disk tier; and a descriptor request for any other tier is a
programmer error (the panic arm, modelled as none). -/
theorem claim_C10_nixl_descriptor (v : MemoryView) :
    (∀ d, v.as_nixl_descriptor = some d → d.addr = v.addr ∧ d.size = v.size) ∧
    (v.storage_type = .system →
      v.as_nixl_descriptor = some ⟨v.addr, v.size, .host, 0⟩) ∧
    (v.storage_type = .pinned →
      v.as_nixl_descriptor = some ⟨v.addr, v.size, .hostPinned, 0⟩) ∧
    (∀ id, v.storage_type = .device id →
      v.as_nixl_descriptor = some ⟨v.addr, v.size, .gpu, id⟩) ∧
    (∀ fd, v.storage_type = .disk fd →
      v.as_nixl_descriptor = some ⟨v.addr, v.size, .file, fd⟩) ∧
    (v.storage_type = .nixl → v.as_nixl_descriptor = none) := by
  obtain ⟨a, sz, stype⟩ := v
  cases stype <;>
    simp [MemoryView.as_nixl_descriptor, StorageType.nixl_mem_type,
      StorageType.nixl_device_id]

/-- C10 witness: a device-tier view yields a descriptor with its address,
size and device-id, and a fabric-tier view has no descriptor mapping. -/
theorem claim_C10_nixl_descriptor_witness :
    MemoryView.as_nixl_descriptor ⟨4096, 512, .device 3⟩ = some ⟨4096, 512, .gpu, 3⟩ ∧
    MemoryView.as_nixl_descriptor ⟨8, 16, .nixl⟩ = none :=
  ⟨(claim_C10_nixl_descriptor ⟨4096, 512, .device 3⟩).2.2.2.1 3 rfl,
   (claim_C10_nixl_descriptor ⟨8, 16, .nixl⟩).2.2.2.2.2 rfl⟩

end Dynamo
